import Mathlib

/-!
Shallow embedding of the freebox-heartbeat repository's session-aware
polling/heartbeat loop: the signed reporter (`src/lib/heartbeat.ts`), the
scheduler's session policy and failure boundary (`src/lib/monitor.ts`), and
the utility layer (`buildHeartbeatPayload`, `isAuthError` from the utils
module).  Effectful JavaScript is modelled by explicit state passing and by
oracles supplying the outcome of each external call; machine numbers are
`Nat`/`Int`; thrown errors are `Except` values.
-/

namespace FreeboxHeartbeat

/-! ## String helpers modelling JavaScript string operations -/

/-- Does the character list `s` start with the pattern `pat`? -/
def headMatch : List Char → List Char → Bool
  | [], _ => true
  | _ :: _, [] => false
  | p :: ps, c :: cs => p == c && headMatch ps cs

/-- Does the pattern `pat` occur contiguously anywhere in `s`?
Models JavaScript `String.prototype.includes`. -/
def occursIn (pat : List Char) : List Char → Bool
  | [] => headMatch pat []
  | c :: cs' => headMatch pat (c :: cs') || occursIn pat cs'

/-- JavaScript `s.includes(pat)`. -/
def strIncludes (s pat : String) : Bool := occursIn pat.data s.data

/-- ASCII lower-casing of one character, as `toLowerCase` acts on the
ASCII messages this system produces. -/
def lowerChar (c : Char) : Char :=
  if 'A' ≤ c && c ≤ 'Z' then Char.ofNat (c.toNat + 32) else c

/-- JavaScript `s.toLowerCase()` restricted to ASCII. -/
def jsToLower (s : String) : String := ⟨s.data.map lowerChar⟩

/-- Does the string `s` end with `pat`?  Models `String.prototype.endsWith`. -/
def endsWithStr (s pat : String) : Bool := headMatch pat.data.reverse s.data.reverse

/-! ## Data model (`types.ts`) -/

/-- `ConnectionInfo` from `types.ts`: every field optional (`?`), `none`
modelling both `null` and an absent property. -/
structure ConnectionInfo where
  ipv4 : Option String := none
  ipv6 : Option String := none
  state : Option String := none
  media : Option String := none
  type : Option String := none
  bandwidth_down : Option Int := none
  bandwidth_up : Option Int := none
  rate_down : Option Int := none
  rate_up : Option Int := none
  bytes_down : Option Int := none
  bytes_up : Option Int := none
  ipv4_port_range : Option (Int × Int) := none
deriving Repr, DecidableEq

/-- `HeartbeatPayload` as produced by `buildHeartbeatPayload` in the utils
module: every field mandatory, `Option` only where the wire value may be
`null`. -/
structure HeartbeatPayload where
  token : String
  ipv4 : Option String
  ipv6 : Option String
  connection_state : String
  media_state : String
  connection_type : String
  bandwidth_down : Int
  bandwidth_up : Int
  rate_down : Int
  rate_up : Int
  bytes_down : Int
  bytes_up : Int
  timestamp : String
deriving Repr, DecidableEq

/-! ## Utils module: `buildHeartbeatPayload` and `isAuthError` -/

/-- `buildHeartbeatPayload(connectionInfo, secret)`.  The impure
`new Date().toISOString()` is passed in as `nowIso`; the `throw` on a null
snapshot becomes `Except.error`.  `??` is `Option.getD`. -/
def buildHeartbeatPayload (connectionInfo : Option ConnectionInfo) (secret : String)
    (nowIso : String) : Except String HeartbeatPayload :=
  match connectionInfo with
  | none => .error "Connection info is required"
  | some ci =>
    .ok {
      token := secret
      ipv4 := ci.ipv4
      ipv6 := ci.ipv6
      connection_state := ci.state.getD "unknown"
      media_state := ci.media.getD "unknown"
      connection_type := ci.type.getD "unknown"
      bandwidth_down := ci.bandwidth_down.getD 0
      bandwidth_up := ci.bandwidth_up.getD 0
      rate_down := ci.rate_down.getD 0
      rate_up := ci.rate_up.getD 0
      bytes_down := ci.bytes_down.getD 0
      bytes_up := ci.bytes_up.getD 0
      timestamp := nowIso }

/-- A JavaScript value reaching `isAuthError` / a `catch` block:
either not an object (`null`, a string, a number, ...) or an object whose
`message` property is absent (`none`) or a string. -/
inductive ErrVal where
  | nonObject
  | object (message : Option String)
deriving Repr, DecidableEq

/-- The keyword list of `isAuthError`. -/
def authKeywords : List String := ["auth", "403", "invalid session", "unauthorized"]

/-- `isAuthError(error)`: false for non-objects and for objects whose
`message` is absent or falsy (`""`); otherwise true iff the lower-cased
message includes one of the keywords. -/
def isAuthError : ErrVal → Bool
  | .nonObject => false
  | .object none => false
  | .object (some m) =>
    if m == "" then false
    else authKeywords.any (fun keyword => strIncludes (jsToLower m) keyword)

/-- Modelled from the spec sentence for C7: a failure is an auth error iff
it has a message that, compared case-insensitively, contains one of the
keyword substrings. -/
def specAuthError : ErrVal → Bool
  | .nonObject => false
  | .object none => false
  | .object (some m) =>
    authKeywords.any (fun keyword => strIncludes (jsToLower m) (jsToLower keyword))

/-! ## Signed reporter (`heartbeat.ts`) -/

/-- Line 17 of `heartbeat.ts`: ensure the URL ends with `/heartbeat`.
`vpsUrl.replace(/\/$/, '')` strips one trailing slash. -/
def stripTrailingSlash (s : String) : String :=
  if endsWithStr s "/" then ⟨s.data.dropLast⟩ else s

/-- `const url = vpsUrl.endsWith('/heartbeat') ? vpsUrl :
vpsUrl.replace(/\/$/, '') + '/heartbeat'`. -/
def normalizeVpsUrl (vpsUrl : String) : String :=
  if endsWithStr vpsUrl "/heartbeat" then vpsUrl
  else stripTrailingSlash vpsUrl ++ "/heartbeat"

set_option linter.unusedVariables false in
/-- Line 22 of `heartbeat.ts`: the canonical message signed per attempt.
`data` is the heartbeat payload in scope at that point of `sendHeartbeat`;
the source expression reads none of it. -/
def canonicalMessage (data : HeartbeatPayload) (timestamp nonce : String) : String :=
  "POST:/heartbeat:" ++ timestamp ++ ":" ++ nonce

/-- The HTTP headers built for one send attempt (lines 23–34). -/
structure SignedHeaders where
  authorization : String
  signatureTimestamp : String
  signatureNonce : String
  contentType : String
deriving Repr, DecidableEq

/-- Lines 20–34 of `heartbeat.ts` with the crypto primitive abstract:
`hmacSha256B64url secret msg` stands for
`createHmac('sha256', secret).update(msg).digest('base64url')`. -/
def signHeartbeatRequest (hmacSha256B64url : String → String → String)
    (secret timestamp nonce : String) (data : HeartbeatPayload) : SignedHeaders :=
  { authorization := "Bearer " ++ hmacSha256B64url secret (canonicalMessage data timestamp nonce)
    signatureTimestamp := timestamp
    signatureNonce := nonce
    contentType := "application/json" }

/-- An error thrown by one `httpClient.post` attempt: an `HttpClientError`
carrying a response, an `HttpClientError` without one, or a plain `Error`. -/
inductive HbError where
  | httpErr (status : Nat) (statusText : String)
  | clientErr (message : String)
  | netErr (message : String)
deriving Repr, DecidableEq

/-- The outcome of one `httpClient.post` call: resolved data or a thrown
error. -/
inductive AttemptOutcome where
  | ok (respData : String)
  | err (e : HbError)
deriving Repr, DecidableEq

/-- Lines 44–47 of `heartbeat.ts`: the `errorMsg` ternary. -/
def hbErrorMsg : HbError → String
  | .httpErr status statusText => toString status ++ " - " ++ statusText
  | .clientErr message => message
  | .netErr message => message

/-- Line 48: `error instanceof HttpClientError && error.response?.status === 404`. -/
def isHttp404 : HbError → Bool
  | .httpErr 404 _ => true
  | _ => false

instance {α β : Type} [DecidableEq α] [DecidableEq β] : DecidableEq (Except α β)
  | .error a, .error b =>
    if h : a = b then .isTrue (by rw [h]) else .isFalse (by simp [h])
  | .error _, .ok _ => .isFalse (by simp)
  | .ok _, .error _ => .isFalse (by simp)
  | .ok a, .ok b =>
    if h : a = b then .isTrue (by rw [h]) else .isFalse (by simp [h])

/-- The observable trace of `sendHeartbeat`: its result (response data or
thrown error message), the number of `post` attempts and the list of
`sleep` durations. -/
structure SendTrace where
  result : Except String String
  attempts : Nat
  sleeps : List Nat
deriving Repr, DecidableEq

/-- `sendHeartbeat` (lines 7–62), its network calls supplied by `oracle`
(the outcome of attempt number `retries`).  The try/catch with recursive
retry becomes structural recursion on `maxRetries + 1 - retries`. -/
def sendHeartbeatFrom (oracle : Nat → AttemptOutcome) (maxRetries retryDelay retries : Nat) :
    SendTrace :=
  match oracle retries with
  | .ok d => { result := .ok d, attempts := 1, sleeps := [] }
  | .err e =>
    if isHttp404 e then { result := .error (hbErrorMsg e), attempts := 1, sleeps := [] }
    else if h : retries < maxRetries then
      let rest := sendHeartbeatFrom oracle maxRetries retryDelay (retries + 1)
      { result := rest.result, attempts := rest.attempts + 1, sleeps := retryDelay :: rest.sleeps }
    else
      { result := .error ("Failed to send heartbeat after " ++ toString maxRetries
          ++ " retries: " ++ hbErrorMsg e)
        attempts := 1
        sleeps := [] }
termination_by maxRetries + 1 - retries
decreasing_by omega

/-- `sendHeartbeat(vpsUrl, secret, data, maxRetries, retryDelay)` starts at
`retries = 0`. -/
def sendHeartbeat (oracle : Nat → AttemptOutcome) (maxRetries retryDelay : Nat) : SendTrace :=
  sendHeartbeatFrom oracle maxRetries retryDelay 0

/-- An attempt outcome that is a thrown error other than an HTTP 404. -/
def failsNon404 : AttemptOutcome → Bool
  | .ok _ => false
  | .err e => !isHttp404 e

/-- A sample heartbeat payload. -/
def hbPayloadA : HeartbeatPayload :=
  { token := "secret", ipv4 := some "1.2.3.4", ipv6 := none, connection_state := "up"
    media_state := "ftth", connection_type := "ethernet", bandwidth_down := 1000000000
    bandwidth_up := 600000000, rate_down := 10176, rate_up := 7954, bytes_down := 0
    bytes_up := 0, timestamp := "2025-11-26T10:00:00.000Z" }

/-- The sample payload with a different connection state (a different body). -/
def hbPayloadB : HeartbeatPayload := { hbPayloadA with connection_state := "down" }

/-! ## Scheduler (`monitor.ts`) -/

/-- The piece of `MonitorConfig` the session policy reads. -/
structure MonitorConfig where
  sessionRefreshInterval : Int
deriving Repr, DecidableEq

/-- The scheduler's mutable session state: the closure variables
`sessionToken` and `lastAuthAt` of `createMonitor`. -/
structure MonitorState where
  sessionToken : Option String
  lastAuthAt : Int
deriving Repr, DecidableEq

/-- Observable side effects of one monitor step: a `loginToFreebox` call, a
`getConnectionInfo` call, log lines, and `sleep` calls. -/
inductive MonEvent where
  | login
  | fetch
  | logInfo (msg : String)
  | logWarn (msg : String)
  | logError (msg : String)
  | sleepMs (ms : Nat)
deriving Repr, DecidableEq

/-- JavaScript truthiness of `!sessionToken`: `null` and `''` are falsy. -/
def jsFalsyToken : Option String → Bool
  | none => true
  | some t => t == ""

/-- Number of `loginToFreebox` calls in an event trace. -/
def countLogins : List MonEvent → Nat
  | [] => 0
  | .login :: evs => countLogins evs + 1
  | _ :: evs => countLogins evs

/-- Number of `getConnectionInfo` calls in an event trace. -/
def countFetches : List MonEvent → Nat
  | [] => 0
  | .fetch :: evs => countFetches evs + 1
  | _ :: evs => countFetches evs

/-- `authenticate(force)` from `monitor.ts` (lines 25–39).  `now` is the
`Date.now()` read at entry, `afterLoginNow` the one after the login
completes; `loginResult` is the outcome of
`readAppToken` + `loginToFreebox` (either may throw). -/
def authenticate (config : MonitorConfig) (st : MonitorState) (now afterLoginNow : Int)
    (force : Bool) (loginResult : Except ErrVal String) :
    Except ErrVal (Option String) × MonitorState × List MonEvent :=
  let shouldRefresh := force || jsFalsyToken st.sessionToken ||
    decide (config.sessionRefreshInterval ≤ now - st.lastAuthAt)
  if !shouldRefresh then (.ok st.sessionToken, st, [])
  else
    match loginResult with
    | .error e => (.error e, st, [.login])
    | .ok tok =>
      (.ok (some tok),
       { sessionToken := some tok, lastAuthAt := afterLoginNow },
       [.login, .logInfo "Authenticated with Freebox API"])

/-- `fetchConnectionInfoWithRefresh` from `monitor.ts` (lines 41–53).
`firstFetch` and `secondFetch` supply the outcomes of the two possible
`getConnectionInfo` calls. -/
def fetchConnectionInfoWithRefresh (config : MonitorConfig) (st : MonitorState)
    (now afterLoginNow : Int) (firstFetch : Except ErrVal ConnectionInfo)
    (loginResult : Except ErrVal String) (secondFetch : Except ErrVal ConnectionInfo) :
    Except ErrVal ConnectionInfo × MonitorState × List MonEvent :=
  match firstFetch with
  | .ok info => (.ok info, st, [.fetch])
  | .error error =>
    if !isAuthError error then (.error error, st, [.fetch])
    else
      let warn : MonEvent := .logWarn "Session appears invalid, refreshing authentication"
      match authenticate config st now afterLoginNow true loginResult with
      | (.error e, st1, evs) => (.error e, st1, .fetch :: warn :: evs)
      | (.ok _, st1, evs) => (secondFetch, st1, (.fetch :: warn :: evs) ++ [.fetch])

/-- The string JavaScript interpolates for `(error as Error).message`. -/
def errMessageJs : ErrVal → String
  | .object (some m) => m
  | .object none => "undefined"
  | .nonObject => "undefined"

/-- `runOnce` from `monitor.ts` (lines 55–70): the try-block (steps 1–4,
session/fetch/build/deliver) is abstracted as its outcome `bodyOutcome`
with `stAfterBody` the session state it left behind; the catch clause is
embedded literally.  The codomain's `Except` carries anything the iteration
would re-throw. -/
def runOnce (stAfterBody : MonitorState) (bodyOutcome : Except ErrVal Unit) :
    Except ErrVal (MonitorState × List MonEvent) :=
  match bodyOutcome with
  | .ok _ => .ok (stAfterBody, [])
  | .error error =>
    let logged : MonEvent := .logError ("Monitor iteration failed: " ++ errMessageJs error)
    if isAuthError error then
      .ok ({ stAfterBody with sessionToken := none }, [logged, .sleepMs 500])
    else
      .ok (stAfterBody, [logged])

/-! ## Theorems -/

/-- C1 (counterexample): the canonical message `sendHeartbeat` signs is the
same string for two different request bodies — it contains no body hash, so
the signed message does not depend on the request body; concretely it is
the four-field string `POST:/heartbeat:<timestamp>:<nonce>`, and the full
signed headers coincide for the two bodies. -/
theorem canonicalMessage_ignores_body :
    hbPayloadA ≠ hbPayloadB ∧
    canonicalMessage hbPayloadA "1700000000" "00ff" =
      canonicalMessage hbPayloadB "1700000000" "00ff" ∧
    canonicalMessage hbPayloadA "1700000000" "00ff" = "POST:/heartbeat:1700000000:00ff" ∧
    signHeartbeatRequest (fun _ msg => msg) "secret" "1700000000" "00ff" hbPayloadA =
      signHeartbeatRequest (fun _ msg => msg) "secret" "1700000000" "00ff" hbPayloadB :=
  ⟨by decide, rfl, rfl, rfl⟩

/-- C1 (amended): for every attempt, the transmitted bearer credential is
the HMAC-SHA256-base64url of the canonical message
`POST:/heartbeat:<timestamp>:<nonce>`, which binds method, path, timestamp
and nonce only; the canonical message is independent of the request body. -/
theorem signHeartbeatRequest_canonical (hmacSha256B64url : String → String → String)
    (secret timestamp nonce : String) (data data2 : HeartbeatPayload) :
    signHeartbeatRequest hmacSha256B64url secret timestamp nonce data =
      { authorization := "Bearer " ++
          hmacSha256B64url secret ("POST:/heartbeat:" ++ timestamp ++ ":" ++ nonce)
        signatureTimestamp := timestamp
        signatureNonce := nonce
        contentType := "application/json" } ∧
    canonicalMessage data timestamp nonce = canonicalMessage data2 timestamp nonce :=
  ⟨rfl, rfl⟩

/-- C2: evaluating the endpoint normalization at the repository's own test
input `https://example.com/api?foo=bar` appends `/heartbeat` after the
query string, not into the path before it as the spec and the repo's test
suite state. -/
theorem normalizeVpsUrl_appends_after_query :
    normalizeVpsUrl "https://example.com/api?foo=bar" =
      "https://example.com/api?foo=bar/heartbeat" ∧
    normalizeVpsUrl "https://example.com/api?foo=bar" ≠
      "https://example.com/api/heartbeat?foo=bar" :=
  ⟨rfl, by decide⟩

/-- When every attempt fails with a non-404 error, `sendHeartbeatFrom`
exhausts the remaining `maxRetries - retries` retries, sleeping the fixed
delay between attempts, and fails with the delivery error built from the
last attempt's message. -/
theorem sendHeartbeatFrom_all_fail (oracle : Nat → AttemptOutcome)
    (maxRetries retryDelay : Nat)
    (hfail : ∀ i, failsNon404 (oracle i) = true) (elast : HbError)
    (hlast : oracle maxRetries = .err elast) :
    ∀ k retries, retries + k = maxRetries →
    sendHeartbeatFrom oracle maxRetries retryDelay retries =
      { result := .error ("Failed to send heartbeat after " ++ toString maxRetries
          ++ " retries: " ++ hbErrorMsg elast)
        attempts := k + 1
        sleeps := List.replicate k retryDelay } := by
  intro k
  induction k with
  | zero =>
    intro retries hr
    have hre : retries = maxRetries := by omega
    subst hre
    have h4 : isHttp404 elast = false := by
      have := hfail retries
      rw [hlast] at this
      simpa [failsNon404] using this
    rw [sendHeartbeatFrom, hlast]
    simp [h4]
  | succ k ih =>
    intro retries hr
    have hlt : retries < maxRetries := by omega
    cases h : oracle retries with
    | ok d =>
      have := hfail retries
      rw [h] at this
      simp [failsNon404] at this
    | err e =>
      have h4 : isHttp404 e = false := by
        have := hfail retries
        rw [h] at this
        simpa [failsNon404] using this
      rw [sendHeartbeatFrom, h]
      simp only [h4, Bool.false_eq_true, if_false, hlt, dif_pos]
      rw [ih (retries + 1) (by omega)]
      simp [List.replicate_succ]

/-- C3: with `maxRetries = N` and a collector that always fails with a
non-404 error, `sendHeartbeat` makes exactly `N + 1` attempts, sleeps
exactly `N` times each for the fixed `retryDelay`, and fails with the
delivery error naming the attempt count and last reason. -/
theorem sendHeartbeat_retry_bound (oracle : Nat → AttemptOutcome)
    (maxRetries retryDelay : Nat)
    (hfail : ∀ i, failsNon404 (oracle i) = true) (elast : HbError)
    (hlast : oracle maxRetries = .err elast) :
    sendHeartbeat oracle maxRetries retryDelay =
      { result := .error ("Failed to send heartbeat after " ++ toString maxRetries
          ++ " retries: " ++ hbErrorMsg elast)
        attempts := maxRetries + 1
        sleeps := List.replicate maxRetries retryDelay } :=
  sendHeartbeatFrom_all_fail oracle maxRetries retryDelay hfail elast hlast maxRetries 0
    (by omega)

/-- C3 witness: three always-failing attempts at `maxRetries = 3`,
`retryDelay = 50`. -/
theorem sendHeartbeat_retry_bound_witness :
    sendHeartbeat (fun _ => .err (.netErr "Network error")) 3 50 =
      { result := .error "Failed to send heartbeat after 3 retries: Network error"
        attempts := 4
        sleeps := [50, 50, 50] } :=
  sendHeartbeat_retry_bound (fun _ => .err (.netErr "Network error")) 3 50
    (fun _ => rfl) (.netErr "Network error") rfl

/-- C4: when the collector responds 404, a single attempt occurs, the
retry sleep never runs, and the failure is raised immediately, whatever
`maxRetries` is. -/
theorem sendHeartbeat_404_short_circuit (oracle : Nat → AttemptOutcome)
    (maxRetries retryDelay : Nat) (e : HbError)
    (h0 : oracle 0 = .err e) (h404 : isHttp404 e = true) :
    sendHeartbeat oracle maxRetries retryDelay =
      { result := .error (hbErrorMsg e), attempts := 1, sleeps := [] } := by
  unfold sendHeartbeat
  rw [sendHeartbeatFrom, h0]
  simp [h404]

/-- C4 witness: a 404 response with `maxRetries = 3`. -/
theorem sendHeartbeat_404_witness :
    sendHeartbeat (fun _ => .err (.httpErr 404 "Not Found")) 3 5000 =
      { result := .error "404 - Not Found", attempts := 1, sleeps := [] } :=
  sendHeartbeat_404_short_circuit (fun _ => .err (.httpErr 404 "Not Found")) 3 5000
    (.httpErr 404 "Not Found") rfl rfl

/-- C7: `isAuthError` returns true exactly when the failure has a message
that, compared case-insensitively, contains one of the substrings `auth`,
`403`, `invalid session`, `unauthorized`. -/
theorem isAuthError_iff_spec (e : ErrVal) : isAuthError e = specAuthError e := by
  cases e with
  | nonObject => rfl
  | object message =>
    cases message with
    | none => rfl
    | some m =>
      by_cases hm : m = ""
      · subst hm; decide
      · have hb : (m == "") = false := by simp [hm]
        simp only [isAuthError, specAuthError, hb, Bool.false_eq_true, if_false]
        rfl

/-- C9: `buildHeartbeatPayload` on an empty (but non-null) snapshot yields
a payload where every field carries its explicit default: `none` for the
addresses, `"unknown"` for connection state, media state and connection
type, and `0` for every numeric counter. -/
theorem buildHeartbeatPayload_empty_defaults (secret nowIso : String) :
    buildHeartbeatPayload (some {}) secret nowIso =
      .ok { token := secret, ipv4 := none, ipv6 := none, connection_state := "unknown"
            media_state := "unknown", connection_type := "unknown", bandwidth_down := 0
            bandwidth_up := 0, rate_down := 0, rate_up := 0, bytes_down := 0, bytes_up := 0
            timestamp := nowIso } := rfl

/-- C10: for every non-null snapshot and every secret, the payload embeds
the shared secret verbatim in its top-level `token` field; and a null
snapshot makes `buildHeartbeatPayload` throw instead of returning a
default payload. -/
theorem buildHeartbeatPayload_token_and_null :
    (∀ (ci : ConnectionInfo) (secret nowIso : String),
      ∃ p, buildHeartbeatPayload (some ci) secret nowIso = .ok p ∧ p.token = secret) ∧
    (∀ (secret nowIso : String),
      buildHeartbeatPayload none secret nowIso = .error "Connection info is required") := by
  refine ⟨fun ci secret nowIso => ⟨_, rfl, rfl⟩, fun secret nowIso => rfl⟩

/-- With a non-empty (or absent) cached token, the JavaScript falsiness
test on the token is exactly the absence test. -/
theorem jsFalsyToken_of_nonempty (tok : Option String) (hne : tok ≠ some "") :
    jsFalsyToken tok = decide (tok = none) := by
  cases tok with
  | none => rfl
  | some t =>
    have ht : t ≠ "" := fun h => hne (by rw [h])
    simp [jsFalsyToken, ht]

/-- C5: `authenticate` performs a login exactly when `force` is true, or no
cached session token exists, or `now - lastAuthAt` has reached the refresh
interval; in every other case it returns the cached token unchanged with no
login, so iterations closer together than the interval share one login. -/
theorem authenticate_refresh_iff (config : MonitorConfig) (st : MonitorState)
    (now afterLoginNow : Int) (force : Bool) (loginResult : Except ErrVal String)
    (hne : st.sessionToken ≠ some "") :
    (countLogins (authenticate config st now afterLoginNow force loginResult).2.2 =
      if force = true ∨ st.sessionToken = none ∨
          config.sessionRefreshInterval ≤ now - st.lastAuthAt then 1 else 0) ∧
    (¬(force = true ∨ st.sessionToken = none ∨
        config.sessionRefreshInterval ≤ now - st.lastAuthAt) →
      authenticate config st now afterLoginNow force loginResult =
        (.ok st.sessionToken, st, [])) := by
  have hsr : (force || jsFalsyToken st.sessionToken ||
      decide (config.sessionRefreshInterval ≤ now - st.lastAuthAt)) =
      decide (force = true ∨ st.sessionToken = none ∨
        config.sessionRefreshInterval ≤ now - st.lastAuthAt) := by
    rw [jsFalsyToken_of_nonempty st.sessionToken hne]
    by_cases h1 : force = true <;> by_cases h2 : st.sessionToken = none <;>
      by_cases h3 : config.sessionRefreshInterval ≤ now - st.lastAuthAt <;>
      simp [h1, h2, h3]
  constructor
  · by_cases h : force = true ∨ st.sessionToken = none ∨
        config.sessionRefreshInterval ≤ now - st.lastAuthAt
    · rw [if_pos h]
      unfold authenticate
      rw [hsr, decide_eq_true h]
      cases loginResult <;> simp [countLogins]
    · rw [if_neg h]
      unfold authenticate
      rw [hsr, decide_eq_false h]
      simp [countLogins]
  · intro h
    unfold authenticate
    rw [hsr, decide_eq_false h]
    simp

/-- C5 witness: a fresh cached token (`lastAuthAt = 1000`, `now = 2000`,
interval `600000`) is reused with no login. -/
theorem authenticate_refresh_iff_witness :
    (countLogins (authenticate ⟨600000⟩ ⟨some "tok", 1000⟩ 2000 2000 false
        (.ok "tok2")).2.2 =
      if false = true ∨ (some "tok" : Option String) = none ∨
          (600000 : Int) ≤ 2000 - 1000 then 1 else 0) ∧
    (¬(false = true ∨ (some "tok" : Option String) = none ∨
        (600000 : Int) ≤ 2000 - 1000) →
      authenticate ⟨600000⟩ ⟨some "tok", 1000⟩ 2000 2000 false (.ok "tok2") =
        (.ok (some "tok"), ⟨some "tok", 1000⟩, [])) :=
  authenticate_refresh_iff ⟨600000⟩ ⟨some "tok", 1000⟩ 2000 2000 false (.ok "tok2")
    (by decide)

/-- C6: the iteration boundary never throws — every body failure yields a
normal return; the failure is logged, and exactly when it classifies as an
auth error the cached session token is cleared and a 500 ms pause is taken
before returning. -/
theorem runOnce_never_throws (st : MonitorState) (bodyOutcome : Except ErrVal Unit) :
    (∃ r, runOnce st bodyOutcome = .ok r) ∧
    (∀ e, bodyOutcome = .error e →
      runOnce st bodyOutcome =
        .ok (if isAuthError e = true then
              ({ st with sessionToken := none },
               [.logError ("Monitor iteration failed: " ++ errMessageJs e), .sleepMs 500])
            else
              (st, [.logError ("Monitor iteration failed: " ++ errMessageJs e)]))) := by
  constructor
  · cases bodyOutcome with
    | ok u => exact ⟨(st, []), rfl⟩
    | error e =>
      by_cases h : isAuthError e = true
      · exact ⟨({ st with sessionToken := none },
          [.logError ("Monitor iteration failed: " ++ errMessageJs e), .sleepMs 500]),
          by simp [runOnce, h]⟩
      · exact ⟨(st, [.logError ("Monitor iteration failed: " ++ errMessageJs e)]),
          by simp [runOnce, h]⟩
  · intro e hb
    subst hb
    by_cases h : isAuthError e = true <;> simp [runOnce, h]

/-- C6 witness: an `Invalid session token` body failure clears the cached
token, logs, and pauses 500 ms. -/
theorem runOnce_never_throws_witness :
    runOnce ⟨some "tok", 0⟩ (.error (.object (some "Invalid session token"))) =
      .ok (if isAuthError (.object (some "Invalid session token")) = true then
            (⟨none, 0⟩,
             [.logError ("Monitor iteration failed: " ++
                errMessageJs (.object (some "Invalid session token"))), .sleepMs 500])
          else
            (⟨some "tok", 0⟩,
             [.logError ("Monitor iteration failed: " ++
                errMessageJs (.object (some "Invalid session token")))])) :=
  (runOnce_never_throws ⟨some "tok", 0⟩ (.error (.object (some "Invalid session token")))).2
    (.object (some "Invalid session token")) rfl

/-- C8: if the first status fetch fails with an auth-classified error, the
iteration forces one login and retries the fetch exactly once, and the
second outcome (success or failure) is returned as is; a first failure not
classified as an auth error propagates with a single fetch and no login. -/
theorem fetchWithRefresh_retry_once (config : MonitorConfig) (st : MonitorState)
    (now afterLoginNow : Int) (firstFetch : Except ErrVal ConnectionInfo)
    (loginResult : Except ErrVal String) (secondFetch : Except ErrVal ConnectionInfo) :
    (∀ e, firstFetch = .error e → isAuthError e = false →
      fetchConnectionInfoWithRefresh config st now afterLoginNow firstFetch loginResult
          secondFetch = (.error e, st, [.fetch])) ∧
    (∀ e tok, firstFetch = .error e → isAuthError e = true → loginResult = .ok tok →
      (fetchConnectionInfoWithRefresh config st now afterLoginNow firstFetch loginResult
          secondFetch).1 = secondFetch ∧
      countFetches (fetchConnectionInfoWithRefresh config st now afterLoginNow firstFetch
          loginResult secondFetch).2.2 = 2 ∧
      countLogins (fetchConnectionInfoWithRefresh config st now afterLoginNow firstFetch
          loginResult secondFetch).2.2 = 1) := by
  constructor
  · intro e hf hauth
    subst hf
    simp [fetchConnectionInfoWithRefresh, hauth]
  · intro e tok hf hauth hl
    subst hf; subst hl
    simp only [fetchConnectionInfoWithRefresh, hauth, Bool.not_true, Bool.false_eq_true,
      if_false]
    simp [authenticate, countFetches, countLogins]

/-- C8 witness: a first fetch failing with `Invalid session token` and a
succeeding retry give one extra login, two fetches, and the retry's
result. -/
theorem fetchWithRefresh_retry_once_witness :
    ((fetchConnectionInfoWithRefresh ⟨600000⟩ ⟨some "tok", 0⟩ 1000 1000
        (.error (.object (some "Invalid session token"))) (.ok "tok2")
        (.ok {})).1 = .ok {} ∧
      countFetches (fetchConnectionInfoWithRefresh ⟨600000⟩ ⟨some "tok", 0⟩ 1000 1000
        (.error (.object (some "Invalid session token"))) (.ok "tok2")
        (.ok {})).2.2 = 2 ∧
      countLogins (fetchConnectionInfoWithRefresh ⟨600000⟩ ⟨some "tok", 0⟩ 1000 1000
        (.error (.object (some "Invalid session token"))) (.ok "tok2")
        (.ok {})).2.2 = 1) :=
  (fetchWithRefresh_retry_once ⟨600000⟩ ⟨some "tok", 0⟩ 1000 1000
      (.error (.object (some "Invalid session token"))) (.ok "tok2") (.ok {})).2
    (.object (some "Invalid session token")) "tok2" rfl (by decide) rfl

end FreeboxHeartbeat
